import Mathlib

/-!
Shallow embedding of the state machine of `src/src/pages/Index.tsx`
(the single component of the gesturespeak-fusion repository).

The component state (React `useState` hooks and `useRef` cells) is one
structure `AppState`; the host environment observables that the claims talk
about — the speech synthesis utterance queue and the set of camera streams
acquired via `getUserMedia` and not yet stopped — are carried in the same
structure.  Each event handler of the component becomes a function
`AppState → AppState`; the asynchronous `captureImage` handler is embedded
as a list of effects (state writes and the simulated delay) together with
the state obtained by running them.
-/

namespace GestureSpeak

/-- Language options offered for TTS, from `LANGUAGE_OPTIONS` in the source. -/
def LANGUAGE_OPTIONS : List String := ["en", "es", "fr", "de", "it"]

/-- The `ttsSettings` state object: language code plus pitch, rate and
volume factors.  The numeric factors (JS numbers moved in steps of 0.1 by
the sliders and only ever carried, never computed with) are modelled as
integers scaled by 100: source value 0.75 is 75 here. -/
structure TtsSettings where
  language : String
  pitch : Int
  rate : Int
  volume : Int
deriving DecidableEq

/-- Initial value of `ttsSettings` in the source: en, pitch 1, rate 0.75,
volume 1 (scaled by 100). -/
def defaultTtsSettings : TtsSettings :=
  { language := "en", pitch := 100, rate := 75, volume := 100 }

/-- Validity predicate on speech settings, from the data model of the spec:
language drawn from the fixed list, pitch in [0.5, 2], rate in [0.5, 1.5],
volume in [0, 1] — all scaled by 100. -/
def validSettings (t : TtsSettings) : Prop :=
  t.language ∈ LANGUAGE_OPTIONS ∧
  (50 : Int) ≤ t.pitch ∧ t.pitch ≤ 200 ∧
  (50 : Int) ≤ t.rate ∧ t.rate ≤ 150 ∧
  (0 : Int) ≤ t.volume ∧ t.volume ≤ 100

instance : DecidablePred validSettings := fun t => by
  unfold validSettings
  infer_instance

/-- The `translateMode` state: camera or text input. -/
inductive Mode
  | camera
  | text
deriving DecidableEq

/-- One utterance submitted to the speech synthesis facility, carrying the
text and the voice parameters copied from the settings at submission time. -/
structure SpeechSynthesisUtterance where
  text : String
  lang : String
  pitch : Int
  rate : Int
  volume : Int
deriving DecidableEq

/-- The full state: the nine `useState` hooks, the three refs (the two DOM
refs reduced to presence, the stream ref to a stream identifier), and the
host observables `speechAvailable` (the `speechSynthesis in window` feature
test), `utterances` (the speech synthesis queue) and `activeStreams` (camera
streams acquired and not yet stopped). -/
structure AppState where
  hasCameraPermission : Bool
  translatedText : String
  inputText : String
  capturedImage : Option String
  isProcessing : Bool
  translateMode : Mode
  ttsSettings : TtsSettings
  showSettings : Bool
  isSpeaking : Bool
  videoRef : Option Unit
  canvasRef : Option Unit
  streamRef : Option Nat
  speechAvailable : Bool
  utterances : List SpeechSynthesisUtterance
  activeStreams : List Nat
deriving DecidableEq

/-- The state right after mount: every hook at its `useState` initializer
(camera mode, empty texts, no image, settings at defaults, flags false,
refs null).  The host observables start empty, with speech available. -/
def initState : AppState :=
  { hasCameraPermission := false
    translatedText := ""
    inputText := ""
    capturedImage := none
    isProcessing := false
    translateMode := Mode.camera
    ttsSettings := defaultTtsSettings
    showSettings := false
    isSpeaking := false
    videoRef := none
    canvasRef := none
    streamRef := none
    speechAvailable := true
    utterances := []
    activeStreams := [] }

/-- JS `String.prototype.trim` on the character list: drop leading and
trailing whitespace. -/
def trimChars (cs : List Char) : List Char :=
  ((cs.dropWhile Char.isWhitespace).reverse.dropWhile Char.isWhitespace).reverse

/-- JS `String.prototype.trim`, as a structurally recursive function on the
underlying character list. -/
def jsTrim (s : String) : String := String.mk (trimChars s.data)

/-- `handleTextTranslation`: if the trimmed input is non-empty (JS truthiness
of `inputText.trim()`), set the translated text to `inputText` — the
original, untrimmed input; otherwise do nothing. -/
def handleTextTranslation (s : AppState) : AppState :=
  if jsTrim s.inputText ≠ "" then { s with translatedText := s.inputText } else s

/-- Build the utterance `speakText` constructs: the translated text with
language, pitch, rate and volume copied from the current settings. -/
def mkUtterance (t : String) (set : TtsSettings) : SpeechSynthesisUtterance :=
  { text := t, lang := set.language, pitch := set.pitch
    rate := set.rate, volume := set.volume }

/-- `speakText`: return immediately when the translated text is empty or
speech synthesis is unavailable; otherwise set the speaking flag and submit
a new utterance.  `window.speechSynthesis.speak` enqueues: the new utterance
is appended after any utterance already queued — the source contains no
cancel call on this path. -/
def speakText (s : AppState) : AppState :=
  if s.translatedText = "" ∨ s.speechAvailable = false then s
  else
    { s with
      isSpeaking := true
      utterances := s.utterances ++ [mkUtterance s.translatedText s.ttsSettings] }

/-- `stopSpeaking`: cancel all queued utterances when the facility is
available (the cancel call is inside the feature check), then reset the
speaking flag unconditionally. -/
def stopSpeaking (s : AppState) : AppState :=
  let s1 := if s.speechAvailable then { s with utterances := [] } else s
  { s1 with isSpeaking := false }

/-- The playback button of the output card dispatches on the speaking flag:
`onClick=\x7bisSpeaking ? stopSpeaking : speakText\x7d`. -/
def speakButtonClick (s : AppState) : AppState :=
  if s.isSpeaking then stopSpeaking s else speakText s

/-- `resetTranslation`: clear the translated text, the input buffer and the
captured image; nothing else is written. -/
def resetTranslation (s : AppState) : AppState :=
  { s with translatedText := "", inputText := "", capturedImage := none }

/-- One observable step of the asynchronous `captureImage` handler: a state
write performed through a React setter, or the awaited simulated delay. -/
inductive Effect
  | setCapturedImage (v : Option String)
  | setIsProcessing (b : Bool)
  | delayMs (n : Nat)
  | setTranslatedText (t : String)
deriving DecidableEq

/-- Apply one effect to the state; the delay changes no state. -/
def applyEffect (s : AppState) : Effect → AppState
  | Effect.setCapturedImage v => { s with capturedImage := v }
  | Effect.setIsProcessing b => { s with isProcessing := b }
  | Effect.delayMs _ => s
  | Effect.setTranslatedText t => { s with translatedText := t }

/-- Run a list of effects in order. -/
def runEffects (s : AppState) (es : List Effect) : AppState :=
  es.foldl applyEffect s

/-- Point inside the `try` block of `captureImage` at which the host raises
an exception: during the snapshot phase (the canvas and encoding calls,
before `setCapturedImage`), or after processing has started.  The `catch`
covers the whole block either way. -/
inductive CaptureErr
  | duringSnapshot
  | duringProcessing
deriving DecidableEq

/-- The constant placeholder translation written on capture success. -/
def sampleTranslation : String :=
  "Hello! How are you? (Sample Sign Language Translation)"

/-- The placeholder written by the `catch` branch of `captureImage`. -/
def errorTranslation : String := "Error in translation"

/-- The effect trace of one `captureImage` call.  When either ref is null
the `else` branch returns before any state write (empty trace).  With both
refs present the success path is: store the encoded snapshot, enter
processing, await the fixed 2000 ms delay, write the sample translation,
exit processing.  A host exception diverts to the `catch` branch, which
writes the error placeholder and exits processing. -/
def captureImageTrace (err : Option CaptureErr) (encoded : String)
    (s : AppState) : List Effect :=
  if s.videoRef.isSome && s.canvasRef.isSome then
    match err with
    | some CaptureErr.duringSnapshot =>
        [Effect.setTranslatedText errorTranslation,
         Effect.setIsProcessing false]
    | some CaptureErr.duringProcessing =>
        [Effect.setCapturedImage (some encoded),
         Effect.setIsProcessing true,
         Effect.delayMs 2000,
         Effect.setTranslatedText errorTranslation,
         Effect.setIsProcessing false]
    | none =>
        [Effect.setCapturedImage (some encoded),
         Effect.setIsProcessing true,
         Effect.delayMs 2000,
         Effect.setTranslatedText sampleTranslation,
         Effect.setIsProcessing false]
  else []

/-- The state after one `captureImage` call has fully settled. -/
def captureImage (err : Option CaptureErr) (encoded : String)
    (s : AppState) : AppState :=
  runEffects s (captureImageTrace err encoded s)

/-- The capture button carries `disabled=\x7bisProcessing\x7d`. -/
def captureButtonDisabled (s : AppState) : Bool := s.isProcessing

/-- Effect trace of a click on the capture button: a disabled button fires
no handler, so while processing the trace is empty. -/
def captureButtonTrace (err : Option CaptureErr) (encoded : String)
    (s : AppState) : List Effect :=
  if captureButtonDisabled s then [] else captureImageTrace err encoded s

/-- State after a click on the capture button. -/
def captureButtonClick (err : Option CaptureErr) (encoded : String)
    (s : AppState) : AppState :=
  runEffects s (captureButtonTrace err encoded s)

/-- Host response to the `getUserMedia` request of `setupCamera`: whether
the promise resolves, and the identifier of the granted stream. -/
structure MediaEnv where
  grant : Bool
  streamId : Nat
deriving DecidableEq

/-- `setupCamera` (camera-mode effect body): on grant the stream exists as a
live resource; it is bound to the video element and recorded in `streamRef`
only when `videoRef.current` is non-null, and permission is set granted
either way.  On rejection permission is set denied. -/
def setupCamera (env : MediaEnv) (s : AppState) : AppState :=
  if env.grant then
    let acquired := { s with activeStreams := s.activeStreams ++ [env.streamId] }
    let bound :=
      if acquired.videoRef.isSome then { acquired with streamRef := some env.streamId }
      else acquired
    { bound with hasCameraPermission := true }
  else { s with hasCameraPermission := false }

/-- The effect cleanup function: stop every track of the stream recorded in
`streamRef` (when one is recorded), then cancel speech synthesis inside its
feature check. -/
def effectCleanup (s : AppState) : AppState :=
  let s1 :=
    match s.streamRef with
    | some id => { s with activeStreams := s.activeStreams.filter (fun x => x ≠ id) }
    | none => s
  if s1.speechAvailable then { s1 with utterances := [] } else s1

/-- Switching from camera mode to text mode: the mode state changes and the
previous effect cleanup runs; the effect body does nothing in text mode. -/
def switchToTextMode (s : AppState) : AppState :=
  effectCleanup { s with translateMode := Mode.text }

/-- Concrete state for the playback claims: a translation is displayed, one
utterance is already queued and the speaking flag is set. -/
def c2state : AppState :=
  { initState with
    translatedText := "hi"
    isSpeaking := true
    utterances := [mkUtterance "prev" defaultTtsSettings] }

/-- Concrete state with preview and drawing surfaces present. -/
def camReadyState : AppState :=
  { initState with
    hasCameraPermission := true
    videoRef := some ()
    canvasRef := some ()
    streamRef := some 0
    activeStreams := [0] }

/-- Concrete state in which a capture is already processing. -/
def processingState : AppState := { camReadyState with isProcessing := true }

/-- C1, counterexample: with typed input two spaces around hello, submitting
sets the result to the untrimmed input, not to its trimmed form hello as the
claim states. -/
theorem c1_counterexample :
    (handleTextTranslation { initState with inputText := "  hello  " }).translatedText
      = "  hello  " ∧
    jsTrim "  hello  " = "hello" ∧
    (handleTextTranslation { initState with inputText := "  hello  " }).translatedText
      ≠ "hello" := by
  refine ⟨by decide, by decide, by decide⟩

/-- C1 (amended): for input non-empty after trimming, submitting the text
translation sets the result to the input verbatim (untrimmed) and changes
nothing else; for whitespace-only input the state is unchanged. -/
theorem c1_text_translation (s : AppState) :
    (jsTrim s.inputText ≠ "" →
      handleTextTranslation s = { s with translatedText := s.inputText }) ∧
    (jsTrim s.inputText = "" → handleTextTranslation s = s) := by
  constructor
  · intro h
    unfold handleTextTranslation
    rw [if_pos h]
  · intro h
    unfold handleTextTranslation
    rw [if_neg (fun hc => hc h)]

/-- C1, witness: the amended theorem evaluated at input with surrounding
spaces, and at whitespace-only input. -/
theorem c1_text_translation_witness :
    handleTextTranslation { initState with inputText := "  hello  " }
      = { initState with inputText := "  hello  ", translatedText := "  hello  " } ∧
    handleTextTranslation { initState with inputText := "   " }
      = { initState with inputText := "   " } := by
  constructor
  · exact (c1_text_translation { initState with inputText := "  hello  " }).1 (by decide)
  · exact (c1_text_translation { initState with inputText := "   " }).2 (by decide)

/-- C2, counterexample: from a state with valid settings in which an
utterance is already queued and the speaking flag is set, invoking playback
start leaves two utterances queued, with the previous one still in place —
no cancellation happens and more than one utterance is active. -/
theorem c2_counterexample :
    c2state.isSpeaking = true ∧
    validSettings c2state.ttsSettings ∧
    (speakText c2state).utterances
      = [mkUtterance "prev" defaultTtsSettings, mkUtterance "hi" defaultTtsSettings] ∧
    (speakText c2state).utterances.length = 2 := by
  refine ⟨by decide, by decide, by decide, by decide⟩

/-- C2 (amended): invoking playback start performs no cancellation — with a
non-empty result and speech available it appends a new utterance built from
the current settings to the queue, leaving every previously queued utterance
in place; the single-utterance discipline exists only at the playback
button, which dispatches to stop (emptying the queue when the facility is
available) whenever the speaking flag is set. -/
theorem c2_speak_no_cancel (s : AppState) :
    (s.translatedText ≠ "" → s.speechAvailable = true →
      speakText s = { s with
        isSpeaking := true
        utterances := s.utterances ++ [mkUtterance s.translatedText s.ttsSettings] }) ∧
    (s.isSpeaking = true → speakButtonClick s = stopSpeaking s) ∧
    (s.speechAvailable = true → (stopSpeaking s).utterances = []) := by
  refine ⟨?_, ?_, ?_⟩
  · intro h1 h2
    unfold speakText
    rw [if_neg]
    intro hc
    cases hc with
    | inl hc => exact h1 hc
    | inr hc => rw [h2] at hc; cases hc
  · intro h
    unfold speakButtonClick
    rw [h]
    rfl
  · intro h
    unfold stopSpeaking
    rw [h]
    rfl

/-- C2, witness: the amended theorem evaluated at the concrete playback
state. -/
theorem c2_speak_no_cancel_witness :
    speakText c2state = { c2state with
      isSpeaking := true
      utterances := c2state.utterances
        ++ [mkUtterance c2state.translatedText c2state.ttsSettings] } ∧
    speakButtonClick c2state = stopSpeaking c2state ∧
    (stopSpeaking c2state).utterances = [] := by
  refine ⟨?_, ?_, ?_⟩
  · exact (c2_speak_no_cancel c2state).1 (by decide) (by decide)
  · exact (c2_speak_no_cancel c2state).2.1 (by decide)
  · exact (c2_speak_no_cancel c2state).2.2 (by decide)

/-- C3: evaluation of the code at the leaking path.  On first mount in
camera mode no video element is rendered (permission starts false), so
`videoRef.current` is null when `getUserMedia` resolves: the granted stream
is never recorded in `streamRef`.  Switching to text mode then runs the
cleanup, which stops only the `streamRef` stream — the acquired stream
stays active, contradicting the claim that no active stream handle
remains. -/
theorem c3_stream_leak :
    (setupCamera { grant := true, streamId := 0 } initState).streamRef = none ∧
    (setupCamera { grant := true, streamId := 0 } initState).hasCameraPermission = true ∧
    (switchToTextMode
      (setupCamera { grant := true, streamId := 0 } initState)).activeStreams = [0] ∧
    (switchToTextMode
      (setupCamera { grant := true, streamId := 0 } initState)).activeStreams ≠ [] := by
  refine ⟨by decide, by decide, by decide, by decide⟩

/-- C4: with the preview and drawing surfaces present and no host failure,
invoking image capture stores the encoded snapshot, enters processing,
awaits the fixed 2000 ms delay, then writes exactly the constant sample
translation and exits processing. -/
theorem c4_capture_success (s : AppState) (encoded : String)
    (hv : s.videoRef.isSome = true) (hc : s.canvasRef.isSome = true) :
    captureImageTrace none encoded s =
      [Effect.setCapturedImage (some encoded),
       Effect.setIsProcessing true,
       Effect.delayMs 2000,
       Effect.setTranslatedText sampleTranslation,
       Effect.setIsProcessing false] ∧
    (captureImage none encoded s).capturedImage = some encoded ∧
    (captureImage none encoded s).translatedText
      = "Hello! How are you? (Sample Sign Language Translation)" ∧
    (captureImage none encoded s).isProcessing = false := by
  have hb : (s.videoRef.isSome && s.canvasRef.isSome) = true := by
    rw [hv, hc]
    rfl
  have ht : captureImageTrace none encoded s =
      [Effect.setCapturedImage (some encoded),
       Effect.setIsProcessing true,
       Effect.delayMs 2000,
       Effect.setTranslatedText sampleTranslation,
       Effect.setIsProcessing false] := by
    unfold captureImageTrace
    rw [hb]
    rfl
  refine ⟨ht, ?_, ?_, ?_⟩ <;>
    simp [captureImage, ht, runEffects, applyEffect, sampleTranslation]

/-- C4, witness: the success theorem evaluated at a concrete camera-ready
state. -/
theorem c4_capture_success_witness :
    (captureImage none "data" camReadyState).capturedImage = some "data" ∧
    (captureImage none "data" camReadyState).translatedText
      = "Hello! How are you? (Sample Sign Language Translation)" ∧
    (captureImage none "data" camReadyState).isProcessing = false := by
  have h := c4_capture_success camReadyState "data" (by decide) (by decide)
  exact ⟨h.2.1, h.2.2.1, h.2.2.2⟩

/-- C5: while a translation is processing the capture button is disabled
(its disabled flag is exactly the exposed processing flag), so triggering
capture again fires no handler: the effect trace is empty — in particular
no second 2000 ms delay starts — and the state is unchanged. -/
theorem c5_no_second_delay (s : AppState) (err : Option CaptureErr)
    (encoded : String) (h : s.isProcessing = true) :
    captureButtonDisabled s = s.isProcessing ∧
    captureButtonTrace err encoded s = [] ∧
    (Effect.delayMs 2000) ∉ captureButtonTrace err encoded s ∧
    captureButtonClick err encoded s = s := by
  have hd : captureButtonDisabled s = true := h
  have ht : captureButtonTrace err encoded s = [] := by
    unfold captureButtonTrace
    rw [hd]
    rfl
  refine ⟨rfl, ht, ?_, ?_⟩
  · rw [ht]
    simp
  · unfold captureButtonClick
    rw [ht]
    rfl

/-- C5, witness: the theorem evaluated at a concrete processing state. -/
theorem c5_no_second_delay_witness :
    captureButtonTrace none "data" processingState = [] ∧
    captureButtonClick none "data" processingState = processingState := by
  have h := c5_no_second_delay processingState none "data" (by decide)
  exact ⟨h.2.1, h.2.2.2⟩

/-- C6: reset writes exactly three fields in one step — translated text to
empty, input buffer to empty, captured image to null. -/
theorem c6_reset_clears (s : AppState) :
    resetTranslation s
      = { s with translatedText := "", inputText := "", capturedImage := none } ∧
    (resetTranslation s).translatedText = "" ∧
    (resetTranslation s).inputText = "" ∧
    (resetTranslation s).capturedImage = none :=
  ⟨rfl, rfl, rfl, rfl⟩

/-- C7: every failure raised inside the capture-and-translate block reaches
the catch branch, which writes the visible error placeholder and exits the
processing state; the failure is absorbed, not propagated. -/
theorem c7_capture_failure (s : AppState) (e : CaptureErr) (encoded : String)
    (hv : s.videoRef.isSome = true) (hc : s.canvasRef.isSome = true) :
    (captureImage (some e) encoded s).translatedText = "Error in translation" ∧
    (captureImage (some e) encoded s).isProcessing = false := by
  have hb : (s.videoRef.isSome && s.canvasRef.isSome) = true := by
    rw [hv, hc]
    rfl
  cases e <;>
    · constructor <;>
        simp [captureImage, captureImageTrace, hb, runEffects, applyEffect,
          errorTranslation]

/-- C7, witness: the failure theorem evaluated at a concrete camera-ready
state, for each failure point. -/
theorem c7_capture_failure_witness :
    (captureImage (some CaptureErr.duringSnapshot) "data" camReadyState).translatedText
      = "Error in translation" ∧
    (captureImage (some CaptureErr.duringSnapshot) "data" camReadyState).isProcessing
      = false ∧
    (captureImage (some CaptureErr.duringProcessing) "data" camReadyState).translatedText
      = "Error in translation" := by
  have h1 := c7_capture_failure camReadyState CaptureErr.duringSnapshot "data"
    (by decide) (by decide)
  have h2 := c7_capture_failure camReadyState CaptureErr.duringProcessing "data"
    (by decide) (by decide)
  exact ⟨h1.1, h1.2, h2.1⟩

/-- C8: when the video or canvas ref is absent, image capture takes the else
branch and returns before any state write: the effect trace is empty and the
state — captured image, processing flag, translated text, everything — is
unchanged. -/
theorem c8_capture_unavailable (s : AppState) (err : Option CaptureErr)
    (encoded : String) (h : s.videoRef = none ∨ s.canvasRef = none) :
    captureImageTrace err encoded s = [] ∧
    captureImage err encoded s = s := by
  have hb : (s.videoRef.isSome && s.canvasRef.isSome) = false := by
    cases h with
    | inl h => rw [h]; rfl
    | inr h => rw [h]; simp
  have ht : captureImageTrace err encoded s = [] := by
    unfold captureImageTrace
    rw [hb]
    rfl
  refine ⟨ht, ?_⟩
  unfold captureImage
  rw [ht]
  rfl

/-- C8, witness: the theorem evaluated at the initial state, whose refs are
both null. -/
theorem c8_capture_unavailable_witness :
    captureImage none "data" initState = initState :=
  (c8_capture_unavailable initState none "data" (Or.inl rfl)).2

/-- C9: reset leaves the processing flag, the speaking flag, the settings,
the mode, the camera permission — and the utterance queue, so an in-flight
utterance is not stopped — unchanged. -/
theorem c9_reset_frame (s : AppState) :
    (resetTranslation s).isProcessing = s.isProcessing ∧
    (resetTranslation s).isSpeaking = s.isSpeaking ∧
    (resetTranslation s).ttsSettings = s.ttsSettings ∧
    (resetTranslation s).translateMode = s.translateMode ∧
    (resetTranslation s).hasCameraPermission = s.hasCameraPermission ∧
    (resetTranslation s).utterances = s.utterances ∧
    (resetTranslation s).speechAvailable = s.speechAvailable :=
  ⟨rfl, rfl, rfl, rfl, rfl, rfl, rfl⟩

/-- C10: stop-speaking resets the speaking flag to false in every state —
also when speech synthesis is unavailable, where the guarded cancel is
skipped and the queue is left alone; when it is available the queue is
cancelled. -/
theorem c10_stop_speaking (s : AppState) :
    (stopSpeaking s).isSpeaking = false ∧
    (s.speechAvailable = false → (stopSpeaking s).utterances = s.utterances) ∧
    (s.speechAvailable = true → (stopSpeaking s).utterances = []) := by
  refine ⟨?_, ?_, ?_⟩
  · unfold stopSpeaking
    cases hs : s.speechAvailable <;> simp
  · intro h
    unfold stopSpeaking
    rw [h]
    rfl
  · intro h
    unfold stopSpeaking
    rw [h]
    rfl

/-- C10, witness: stop-speaking evaluated both with the facility available
and with it unavailable. -/
theorem c10_stop_speaking_witness :
    (stopSpeaking c2state).isSpeaking = false ∧
    (stopSpeaking c2state).utterances = [] ∧
    (stopSpeaking { c2state with speechAvailable := false }).isSpeaking = false ∧
    (stopSpeaking { c2state with speechAvailable := false }).utterances
      = c2state.utterances := by
  refine ⟨?_, ?_, ?_, ?_⟩
  · exact (c10_stop_speaking c2state).1
  · exact (c10_stop_speaking c2state).2.2 (by decide)
  · exact (c10_stop_speaking { c2state with speechAvailable := false }).1
  · exact (c10_stop_speaking { c2state with speechAvailable := false }).2.1 (by decide)

end GestureSpeak
